import Mathlib

/-!
Verification of the flopflip adapter-lifecycle controller and the memory
adapter against the repository's natural-language specification.

The core is a shallow embedding of
`packages/react/modules/components/configure-adapter/configure-adapter.tsx`:
the controller's state (`appliedAdapterArgs`, `pendingAdapterArgs`,
`adapterState`) and its handlers (`applyAdapterArgs`, `setPendingAdapterArgs`,
`reconfigureOrQueue`, the mount effect, the props-change effect, the update
effect, and the two promise-fulfilment callbacks) are translated into pure
Lean functions.  React's scheduling is abstracted into traces of events; the
temporal theorems quantify over all traces that satisfy a validity predicate
weaker than React's actual scheduling (mount happens once, at the start, and
a promise resolution only occurs while a configure/reconfigure call is
outstanding), so they hold in particular for the schedules React produces.

The flag normalizer, the adapter-args merge helper and the memory adapter are
not part of the extracted sources (only the memory adapter's test file is);
their definitions below are modelled from the specification and are marked as
such in their doc comments.
-/

set_option autoImplicit false

namespace Flopflip

/-! ### Adapter arguments and flags -/

/-- Adapter arguments, an opaque adapter-specific configuration object.
Modelled as a flat association list of named fields (field name to opaque
string value), which is enough to express the merge semantics the spec
describes at the field level. -/
abbrev AdapterArgs := List (String × String)

/-- A flag value as the adapter publishes it: a boolean, a provider-defined
variation (string), or JavaScript `null`/`undefined`. -/
inductive FlagValue where
  | boolean (b : Bool)
  | variation (s : String)
  | null
deriving DecidableEq

/-- Flags: a mapping from flag name to flag value, as an association list. -/
abbrev Flags := List (String × FlagValue)

/-- Reconfiguration options, `{ shouldOverwrite: boolean }`. -/
structure ReconfigurationOptions where
  shouldOverwrite : Bool
deriving DecidableEq

/-- A reconfiguration request, `{ adapterArgs, options }`. -/
structure AdapterReconfiguration where
  adapterArgs : AdapterArgs
  options : ReconfigurationOptions
deriving DecidableEq

/-- Replace the value of field `key` in `fields`, or append it when absent. -/
def setField (fields : AdapterArgs) (key val : String) : AdapterArgs :=
  if fields.any (fun f => decide (f.1 = key)) then
    fields.map (fun f => if f.1 = key then (key, val) else f)
  else
    fields ++ [(key, val)]

/-- Fields of `incoming` merged over `base`: incoming fields take precedence,
remaining fields of `base` are kept. -/
def overrideFields (base incoming : AdapterArgs) : AdapterArgs :=
  incoming.foldl (fun acc f => setField acc f.1 f.2) base

/-- Field-wise union: all fields of `base` not present in `incoming`, plus all
fields of `incoming`. -/
def unionFields (base incoming : AdapterArgs) : AdapterArgs :=
  base.filter (fun f => !incoming.any (fun g => decide (g.1 = f.1))) ++ incoming

/-- Modelled from the spec: `mergeAdapterArgs` lives in the controller's
`./helpers` module, which is not among the extracted sources.  Per spec
section 4.1 and testable properties 2 and 3: with `shouldOverwrite = true`
the incoming fields replace the corresponding fields of the base (the
incoming fields merged over the base, incoming taking precedence); with
`shouldOverwrite = false` the incoming arguments combine additively with the
base (all fields of the base not present in the incoming set, plus all
incoming fields). -/
def mergeAdapterArgs (base : AdapterArgs) (next : AdapterReconfiguration) : AdapterArgs :=
  if next.options.shouldOverwrite then
    overrideFields base next.adapterArgs
  else
    unionFields base next.adapterArgs

/-! ### Controller state (configure-adapter.tsx, lines 21-57) -/

/-- The `AdapterStates` enumeration: `UNCONFIGURED`, `CONFIGURING`,
`CONFIGURED` (configure-adapter.tsx lines 21-30). -/
inductive AdapterStateValue where
  | unconfigured
  | configuring
  | configured
deriving DecidableEq

/-- The controller's mutable state: the `appliedAdapterArgs` `useState` value,
the `pendingAdapterArgs` ref and the `adapterState` ref
(configure-adapter.tsx lines 46-50). -/
structure Controller where
  appliedAdapterArgs : AdapterArgs
  pendingAdapterArgs : Option AdapterArgs
  adapterState : AdapterStateValue
deriving DecidableEq

/-- The controller's props that the embedded effects read
(configure-adapter.tsx lines 32-42, with `defaultProps` lines 276-281). -/
structure Props where
  shouldDeferAdapterConfiguration : Bool
  adapterArgs : AdapterArgs
  defaultFlags : Flags
deriving DecidableEq

/-- Initial controller state: `appliedAdapterArgs` is initialized from
`props.adapterArgs`, `pendingAdapterArgs` is `null`, `adapterState` is
`UNCONFIGURED` (configure-adapter.tsx lines 46-50). -/
def initialController (p : Props) : Controller :=
  { appliedAdapterArgs := p.adapterArgs
    pendingAdapterArgs := none
    adapterState := AdapterStateValue.unconfigured }

/-- `applyAdapterArgs` (configure-adapter.tsx lines 63-71) together with the
effect on `appliedAdapterArgs` (lines 59-61) that resets
`pendingAdapterArgs.current` to `null` once the new applied value has been
committed.  The clearing effect fires exactly when `appliedAdapterArgs`
changes, and `setAppliedAdapterArgs` is only reachable through
`applyAdapterArgs`, so the two are folded into one atomic transition. -/
def applyAdapterArgs (c : Controller) (nextAdapterArgs : AdapterArgs) : Controller :=
  { c with
    appliedAdapterArgs := nextAdapterArgs
    pendingAdapterArgs := none }

/-- `getIsAdapterConfigured` (configure-adapter.tsx lines 73-78):
`adapterState === CONFIGURED && adapterState !== CONFIGURING`. -/
def getIsAdapterConfigured (c : Controller) : Bool :=
  decide (c.adapterState = AdapterStateValue.configured) &&
    decide (¬ c.adapterState = AdapterStateValue.configuring)

/-- `getDoesAdapterNeedInitialConfiguration` (configure-adapter.tsx lines
80-85): `adapterState !== CONFIGURED && adapterState !== CONFIGURING`. -/
def getDoesAdapterNeedInitialConfiguration (c : Controller) : Bool :=
  decide (¬ c.adapterState = AdapterStateValue.configured) &&
    decide (¬ c.adapterState = AdapterStateValue.configuring)

/-- `setPendingAdapterArgs` (configure-adapter.tsx lines 87-103): the next
reconfiguration is merged into the previous pending arguments, seeded from
`appliedAdapterArgs` when nothing is pending yet. -/
def setPendingAdapterArgs (c : Controller) (nextReconfiguration : AdapterReconfiguration) :
    Controller :=
  { c with
    pendingAdapterArgs :=
      some (mergeAdapterArgs
        (c.pendingAdapterArgs.getD c.appliedAdapterArgs) nextReconfiguration) }

/-- `getAdapterArgsForConfiguration` (configure-adapter.tsx lines 143-146):
`pendingAdapterArgs.current ?? appliedAdapterArgs`. -/
def getAdapterArgsForConfiguration (c : Controller) : AdapterArgs :=
  c.pendingAdapterArgs.getD c.appliedAdapterArgs

/-- `reconfigureOrQueue` (configure-adapter.tsx lines 111-130): when the
adapter is configured, merge into the applied arguments and apply; otherwise
queue by merging into the pending arguments. -/
def reconfigureOrQueue (c : Controller) (nextAdapterArgs : AdapterArgs)
    (options : ReconfigurationOptions) : Controller :=
  if getIsAdapterConfigured c then
    applyAdapterArgs c
      (mergeAdapterArgs c.appliedAdapterArgs
        { adapterArgs := nextAdapterArgs, options := options })
  else
    setPendingAdapterArgs c { adapterArgs := nextAdapterArgs, options := options }

/-! ### Observable outputs and effects -/

/-- A call issued to the adapter: `adapter.configure(args, handlers)` or
`adapter.reconfigure(args, handlers)`. -/
inductive AdapterCall where
  | configure (args : AdapterArgs)
  | reconfigure (args : AdapterArgs)
deriving DecidableEq

/-- Observable outputs of the controller: calls to the adapter, and
invocations of the `onFlagsStateChange` callback made by the controller
itself (`handleDefaultFlags`). -/
inductive Output where
  | adapterCall (call : AdapterCall)
  | flagsStateChange (flags : Flags)
deriving DecidableEq

/-- The mount effect (configure-adapter.tsx lines 158-178): publish default
flags through `handleDefaultFlags` (lines 149-156, which only invokes the
callback when the default flags are non-empty), then, unless configuration is
deferred, set the adapter state to `CONFIGURING` and issue
`adapter.configure` with `getAdapterArgsForConfiguration()`. -/
def mountEffect (p : Props) (c : Controller) : Controller × List Output :=
  let flagOutputs : List Output :=
    if p.defaultFlags.isEmpty then [] else [Output.flagsStateChange p.defaultFlags]
  if !p.shouldDeferAdapterConfiguration then
    ({ c with adapterState := AdapterStateValue.configuring },
      flagOutputs ++
        [Output.adapterCall (AdapterCall.configure (getAdapterArgsForConfiguration c))])
  else
    (c, flagOutputs)

/-- The props-change effect (configure-adapter.tsx lines 191-206):
`reconfigureOrQueue(adapterArgs, { shouldOverwrite: adapterState.current ===
AdapterStates.CONFIGURED })`. -/
def receivePropsEffect (c : Controller) (adapterArgs : AdapterArgs) : Controller :=
  reconfigureOrQueue c adapterArgs
    { shouldOverwrite := decide (c.adapterState = AdapterStateValue.configured) }

/-- The update effect (configure-adapter.tsx lines 208-249): when the adapter
still needs initial configuration (and configuration is not deferred), set
`CONFIGURING` and issue `adapter.configure`; then, when the adapter is
configured, set `CONFIGURING` and issue `adapter.reconfigure`.  The two
branches are evaluated sequentially, so the second guard sees the state the
first branch produced. -/
def updateEffect (p : Props) (c : Controller) : Controller × List Output :=
  let step1 : Controller × List Output :=
    if !p.shouldDeferAdapterConfiguration && getDoesAdapterNeedInitialConfiguration c then
      ({ c with adapterState := AdapterStateValue.configuring },
        [Output.adapterCall (AdapterCall.configure (getAdapterArgsForConfiguration c))])
    else
      (c, [])
  if getIsAdapterConfigured step1.1 then
    ({ step1.1 with adapterState := AdapterStateValue.configuring },
      step1.2 ++
        [Output.adapterCall (AdapterCall.reconfigure (getAdapterArgsForConfiguration step1.1))])
  else
    step1

/-- The fulfilment callback of `adapter.configure` (configure-adapter.tsx
lines 169-174 and 227-233): set `CONFIGURED`, then, when pending arguments
exist, promote them through `applyAdapterArgs`. -/
def resolveConfigureEffect (c : Controller) : Controller :=
  let c1 := { c with adapterState := AdapterStateValue.configured }
  match c.pendingAdapterArgs with
  | some pending => applyAdapterArgs c1 pending
  | none => c1

/-- The fulfilment callback of `adapter.reconfigure` (configure-adapter.tsx
lines 244-246): set `CONFIGURED` only; pending arguments are not promoted
here. -/
def resolveReconfigureEffect (c : Controller) : Controller :=
  { c with adapterState := AdapterStateValue.configured }

/-! ### Traces -/

/-- Events the controller reacts to.  `mount` is the one-time mount effect;
`receiveProps` is a run of the props-change effect with new
`props.adapterArgs`; `update` is a run of the update effect;
`contextReconfigure` is the public reconfiguration entry point routed through
the adapter context; the two `resolve` events are the fulfilment callbacks of
the outstanding configure/reconfigure promise. -/
inductive Event where
  | mount
  | receiveProps (adapterArgs : AdapterArgs)
  | update
  | contextReconfigure (adapterArgs : AdapterArgs) (options : ReconfigurationOptions)
  | resolveConfigure
  | resolveReconfigure
deriving DecidableEq

/-- One controller step: the state transition and the outputs an event
produces. -/
def traceStep (p : Props) (c : Controller) : Event → Controller × List Output
  | Event.mount => mountEffect p c
  | Event.receiveProps args => (receivePropsEffect c args, [])
  | Event.update => updateEffect p c
  | Event.contextReconfigure args opts => (reconfigureOrQueue c args opts, [])
  | Event.resolveConfigure => (resolveConfigureEffect c, [])
  | Event.resolveReconfigure => (resolveReconfigureEffect c, [])

/-- Run a list of events, accumulating outputs. -/
def runEvents (p : Props) : Controller → List Event → Controller × List Output
  | c, [] => (c, [])
  | c, e :: es =>
    let step := traceStep p c e
    let rest := runEvents p step.1 es
    (rest.1, step.2 ++ rest.2)

/-- Does this output represent a call to the adapter? -/
def isAdapterCallOutput : Output → Bool
  | Output.adapterCall _ => true
  | Output.flagsStateChange _ => false

/-- Number of adapter calls among a list of outputs. -/
def countAdapterCalls (outs : List Output) : Nat :=
  outs.countP isAdapterCallOutput

/-- Is this event the resolution of an outstanding adapter promise? -/
def isResolveEvent : Event → Bool
  | Event.resolveConfigure => true
  | Event.resolveReconfigure => true
  | _ => false

/-- May this event occur while `k` adapter calls are outstanding?  `mount`
never occurs mid-trace (React mounts the component once, before all other
events), and a promise resolution requires exactly the one outstanding call
it resolves (each issued promise resolves at most once). -/
def eventAllowed : Event → Nat → Bool
  | Event.mount, _ => false
  | Event.resolveConfigure, k => decide (k = 1)
  | Event.resolveReconfigure, k => decide (k = 1)
  | _, _ => true

/-- The number of outstanding adapter calls after an event: a resolution
retires one call, any other event adds the calls it issued. -/
def nextOutstanding (k : Nat) (e : Event) (outs : List Output) : Nat :=
  if isResolveEvent e then k - 1 else k + countAdapterCalls outs

/-- Validity of a post-mount trace, given the current controller state and
the number of outstanding adapter calls. -/
def validFrom (p : Props) : Controller → Nat → List Event → Bool
  | _, _, [] => true
  | c, k, e :: es =>
    let step := traceStep p c e
    eventAllowed e k && validFrom p step.1 (nextOutstanding k e step.2) es

/-- The controller state and outstanding-call count after a trace. -/
def runOutstanding (p : Props) : Controller → Nat → List Event → Controller × Nat
  | c, k, [] => (c, k)
  | c, k, e :: es =>
    let step := traceStep p c e
    runOutstanding p step.1 (nextOutstanding k e step.2) es

/-! ### Rendering (configure-adapter.tsx, lines 251-273) -/

/-- An opaque rendered React node. -/
inductive ReactNode where
  | element (tag : String)
deriving DecidableEq

/-- The `children` prop: a function of `{ isAdapterReady }`, opaque child
nodes, or `null` (the `defaultProps` value, configure-adapter.tsx line 279). -/
inductive ConfigureAdapterChildren where
  | functionChildren (f : Bool → ReactNode)
  | nodeChildren (nodes : List ReactNode)
  | nullChildren

/-- `React.Children.only`: the sole child.  (For zero or several children the
real call throws; the model returns `none` there, a case no theorem below
relies on.) -/
def reactChildrenOnly : List ReactNode → Option ReactNode
  | [n] => some n
  | _ => none

/-- Modelled from the spec: `isEmptyChildren` lives in the controller's
`./helpers` module, which is not among the extracted sources; it reports
whether `React.Children.count(children)` is zero. -/
def isEmptyChildren (nodes : List ReactNode) : Bool :=
  nodes.isEmpty

/-- The controller's render body (configure-adapter.tsx lines 255-271,
inside the context provider): when the adapter is ready and `props.render`
is a function, return its result; otherwise function children receive
`{ isAdapterReady }`; otherwise non-empty opaque children render through
`React.Children.only`; otherwise `null`.  `render` is modelled as the node
the `props.render` callback would return (`none` when the prop is `null`).
The result `none` is the rendered `null`. -/
def renderConfigureAdapter (isAdapterReady : Bool) (render : Option ReactNode)
    (children : ConfigureAdapterChildren) : Option ReactNode :=
  if isAdapterReady && render.isSome then
    render
  else
    match children with
    | ConfigureAdapterChildren.functionChildren f => some (f isAdapterReady)
    | ConfigureAdapterChildren.nodeChildren nodes =>
      if !isEmptyChildren nodes then reactChildrenOnly nodes else none
    | ConfigureAdapterChildren.nullChildren => none

/-! ### Flag normalizer (modelled from the spec)

The normalizer itself is not among the extracted sources; only the memory
adapter's test file (`src/unnamed/part_000`, lines 117-138) exercises it.
Per spec section 4.3 it maps raw flag-name/value pairs to canonical
camel-cased names and boolean-coerced values, deterministically and totally.
-/

/-- Word separators the camel-casing removes: `-` and `_`. -/
def isWordSeparator (c : Char) : Bool :=
  decide (c = '-') || decide (c = '_')

/-- Modelled from the spec: camel-casing of a raw flag name, character by
character.  A separator is dropped and the next non-separator character is
upper-cased.  The `capitalizeNext` flag records whether a separator was just
consumed. -/
def camelCaseAux (capitalizeNext : Bool) : List Char → List Char
  | [] => []
  | c :: cs =>
    if isWordSeparator c then
      camelCaseAux true cs
    else
      (if capitalizeNext then c.toUpper else c) :: camelCaseAux false cs

/-- Modelled from the spec: canonical camel-cased form of a raw flag name
(spec section 4.3, "camel-case keys"). -/
def normalizeFlagName (s : String) : String :=
  String.mk (camelCaseAux false s.data)

/-- Modelled from the spec: value coercion (spec sections 4.3 and 7):
`null`/`undefined` raw values are coerced to the defined falsy boolean
`false`; recognized values pass through unchanged, never rejected. -/
def normalizeFlagValue : FlagValue → FlagValue
  | FlagValue.null => FlagValue.boolean false
  | v => v

/-- Modelled from the spec: the flag normalizer, applied pairwise to names
and values.  Total by construction: every input pair yields an output pair. -/
def normalizeFlags (fs : Flags) : Flags :=
  fs.map (fun f => (normalizeFlagName f.1, normalizeFlagValue f.2))

/-- A flag name already in canonical form contains no word separator. -/
def isCanonicalFlagName (s : String) : Bool :=
  s.data.all (fun c => !isWordSeparator c)

/-- A flag value already in canonical form is not the raw `null`. -/
def isCanonicalFlagValue : FlagValue → Bool
  | FlagValue.null => false
  | _ => true

/-- A flag set is canonical when all names and values are canonical. -/
def isCanonicalFlags (fs : Flags) : Bool :=
  fs.all (fun f => isCanonicalFlagName f.1 && isCanonicalFlagValue f.2)

/-! ### Memory adapter (modelled from the spec)

The memory adapter's implementation is not among the extracted sources; only
its test file (`src/unnamed/part_000`) is.  The operations below are modelled
from spec section 4.2 (the adapter state contract), section 7 (the invariant
contract-violation mechanism) and the behaviors the test file asserts.
-/

/-- Notifications the memory adapter emits through the event handlers given
to `configure`. -/
inductive AdapterEmit where
  | flagsStateChange (flags : Flags)
  | statusStateChange (isReady : Bool) (isConfigured : Bool)
deriving DecidableEq

/-- Modelled from the spec: the memory adapter's internal state (ready and
configured bits, the normalized flags, the current user). -/
structure MemoryAdapterState where
  isReady : Bool
  isConfigured : Bool
  flags : Flags
  user : Option String
deriving DecidableEq

/-- The memory adapter before `configure`: not ready, not configured, no
flags. -/
def initialMemoryAdapterState : MemoryAdapterState :=
  { isReady := false, isConfigured := false, flags := [], user := none }

/-- Result of a memory-adapter operation: the next state, the conditions the
operation passed to the `invariant` assertion mechanism (in call order), and
the notifications it emitted. -/
structure AdapterOpResult where
  state : MemoryAdapterState
  invariantConditions : List Bool
  events : List AdapterEmit
deriving DecidableEq

/-- Modelled from the spec: `adapter.configure(args, handlers)` (spec section
4.2; test lines 60-93): records the user, resets the flags, marks the adapter
ready and configured, and invokes the status and flags handlers at least once
for the initial state. -/
def memoryConfigure (_s : MemoryAdapterState) (user : String) : AdapterOpResult :=
  { state := { isReady := true, isConfigured := true, flags := [], user := some user }
    invariantConditions := []
    events := [AdapterEmit.statusStateChange true true, AdapterEmit.flagsStateChange []] }

/-- Merge newly published flags over the existing ones, newest winning. -/
def mergeFlags (oldFlags newFlags : Flags) : Flags :=
  oldFlags.filter (fun f => !newFlags.any (fun g => decide (g.1 = f.1))) ++ newFlags

/-- Modelled from the spec: `updateFlags` (spec sections 4.2 and 7; test
lines 50-58 and 95-138).  The call first signals the `invariant` mechanism
with the condition "the adapter is configured"; when the condition fails the
call is a loud, non-fatal contract violation (total function, no crash) that
changes nothing; when it holds the flags are normalized, merged into the
state and published through `onFlagsStateChange`. -/
def memoryUpdateFlags (s : MemoryAdapterState) (fs : Flags) : AdapterOpResult :=
  if s.isConfigured then
    let merged := mergeFlags s.flags (normalizeFlags fs)
    { state := { s with flags := merged }
      invariantConditions := [true]
      events := [AdapterEmit.flagsStateChange merged] }
  else
    { state := s, invariantConditions := [false], events := [] }

/-- Modelled from the spec: `adapter.reset()` (spec section 8, property 6;
test lines 161-178): clears the stored flags and emits no notification. -/
def memoryReset (s : MemoryAdapterState) : AdapterOpResult :=
  { state := { s with flags := [] }, invariantConditions := [], events := [] }

/-- `adapter.getFlag(name)` (spec section 4.2): the stored value, or
`undefined` (`none`) when absent. -/
def getFlag (s : MemoryAdapterState) (name : String) : Option FlagValue :=
  s.flags.lookup name

/-- Events occurring after a configure/reconfigure rejection: anything except
a fulfilment callback (the rejected promise never fulfils, and the stalled
controller issues no further call whose promise could fulfil) and except
`mount` (which happens once, before). -/
def isPostRejectionEvent : Event → Bool
  | Event.mount => false
  | Event.resolveConfigure => false
  | Event.resolveReconfigure => false
  | _ => true

/-! ### Sample values used by the closed witness statements -/

/-- Sample props: no deferral, one adapter-args field, no default flags. -/
def sampleProps : Props :=
  { shouldDeferAdapterConfiguration := false
    adapterArgs := [("user", "foo")]
    defaultFlags := [] }

/-- The controller right after the mount effect under `sampleProps`. -/
def sampleMounted : Controller :=
  (mountEffect sampleProps (initialController sampleProps)).1

/-- The number of adapter calls the mount effect under `sampleProps` issues. -/
def sampleMountCalls : Nat :=
  countAdapterCalls (mountEffect sampleProps (initialController sampleProps)).2

/-- A sample post-mount trace: an external reconfiguration request queued
while configuring, the configure fulfilment, the update pass issuing the
promoted reconfigure, and its fulfilment. -/
def sampleTrace : List Event :=
  [Event.contextReconfigure [("user", "bar")] { shouldOverwrite := false },
    Event.resolveConfigure, Event.update, Event.resolveReconfigure]

/-- A sample post-mount trace reaching `CONFIGURED` with a pending value: the
configure fulfils, a props change is applied directly and reconfigured, an
external request is queued while the reconfigure is outstanding, and the
reconfigure fulfils without promoting it. -/
def stalePendingTrace : List Event :=
  [Event.resolveConfigure, Event.receiveProps [("user", "bar")], Event.update,
    Event.contextReconfigure [("locale", "de")] { shouldOverwrite := false },
    Event.resolveReconfigure]

/-! ### Helper lemmas -/

theorem reconfigureOrQueue_adapterState (c : Controller) (args : AdapterArgs)
    (opts : ReconfigurationOptions) :
    (reconfigureOrQueue c args opts).adapterState = c.adapterState := by
  unfold reconfigureOrQueue applyAdapterArgs setPendingAdapterArgs
  split <;> rfl

theorem receivePropsEffect_adapterState (c : Controller) (args : AdapterArgs) :
    (receivePropsEffect c args).adapterState = c.adapterState :=
  reconfigureOrQueue_adapterState c args _

theorem updateEffect_of_configuring {p : Props} {c : Controller}
    (h : c.adapterState = AdapterStateValue.configuring) :
    updateEffect p c = (c, []) := by
  obtain ⟨a, pnd, st⟩ := c
  simp only [Controller.mk.injEq] at h       -- h : st = configuring
  subst h
  simp [updateEffect, getIsAdapterConfigured, getDoesAdapterNeedInitialConfiguration]

theorem updateEffect_of_configured {p : Props} {c : Controller}
    (h : c.adapterState = AdapterStateValue.configured) :
    updateEffect p c =
      ({ c with adapterState := AdapterStateValue.configuring },
        [Output.adapterCall
          (AdapterCall.reconfigure (getAdapterArgsForConfiguration c))]) := by
  obtain ⟨a, pnd, st⟩ := c
  simp only [Controller.mk.injEq] at h
  subst h
  simp [updateEffect, getIsAdapterConfigured, getDoesAdapterNeedInitialConfiguration]

theorem updateEffect_spec (p : Props) (c : Controller) :
    updateEffect p c = (c, []) ∨
      ((updateEffect p c).1.adapterState = AdapterStateValue.configuring ∧
        countAdapterCalls (updateEffect p c).2 = 1) := by
  obtain ⟨a, pnd, st⟩ := c
  cases st <;> cases hd : p.shouldDeferAdapterConfiguration <;>
    simp [updateEffect, getIsAdapterConfigured, getDoesAdapterNeedInitialConfiguration,
      hd, countAdapterCalls, isAdapterCallOutput]

theorem reconfigureOrQueue_of_configured {c : Controller}
    (h : getIsAdapterConfigured c = true) (args : AdapterArgs)
    (opts : ReconfigurationOptions) :
    reconfigureOrQueue c args opts =
      applyAdapterArgs c
        (mergeAdapterArgs c.appliedAdapterArgs
          { adapterArgs := args, options := opts }) := by
  unfold reconfigureOrQueue
  rw [h]
  simp

theorem reconfigureOrQueue_of_not_configured {c : Controller}
    (h : getIsAdapterConfigured c = false) (args : AdapterArgs)
    (opts : ReconfigurationOptions) :
    reconfigureOrQueue c args opts =
      setPendingAdapterArgs c { adapterArgs := args, options := opts } := by
  unfold reconfigureOrQueue
  rw [h]
  simp

theorem getIsAdapterConfigured_iff (c : Controller) :
    getIsAdapterConfigured c = true ↔
      c.adapterState = AdapterStateValue.configured := by
  obtain ⟨a, pnd, st⟩ := c
  cases st <;> simp [getIsAdapterConfigured]

theorem mountEffect_pendingAdapterArgs (p : Props) (c : Controller) :
    (mountEffect p c).1.pendingAdapterArgs = c.pendingAdapterArgs := by
  cases hd : p.shouldDeferAdapterConfiguration <;> simp [mountEffect, hd]

theorem updateEffect_pendingAdapterArgs (p : Props) (c : Controller) :
    (updateEffect p c).1.pendingAdapterArgs = c.pendingAdapterArgs := by
  obtain ⟨a, pnd, st⟩ := c
  cases st <;> cases hd : p.shouldDeferAdapterConfiguration <;>
    simp [updateEffect, getIsAdapterConfigured,
      getDoesAdapterNeedInitialConfiguration, hd]

theorem camelCaseAux_of_no_separator :
    ∀ cs : List Char, cs.all (fun c => !isWordSeparator c) = true →
      camelCaseAux false cs = cs := by
  intro cs h
  induction cs with
  | nil => rfl
  | cons c cs ih =>
    rw [List.all_cons, Bool.and_eq_true] at h
    have hc : isWordSeparator c = false := by
      cases hw : isWordSeparator c
      · rfl
      · rw [hw] at h; simp at h
    unfold camelCaseAux
    rw [hc]
    simp [ih h.2]

theorem normalizeFlagName_of_canonical (s : String)
    (h : isCanonicalFlagName s = true) : normalizeFlagName s = s := by
  obtain ⟨data⟩ := s
  unfold isCanonicalFlagName at h
  unfold normalizeFlagName
  rw [camelCaseAux_of_no_separator data h]

theorem normalizeFlagValue_of_canonical (v : FlagValue)
    (h : isCanonicalFlagValue v = true) : normalizeFlagValue v = v := by
  cases v <;> simp_all [isCanonicalFlagValue, normalizeFlagValue]

/-! ### Claim theorems -/

/-- C8: flag normalization is a deterministic, total function that never
fails on any input (it is a Lean function into `Flags`, defined for every
input and producing one output pair per input pair); normalizing an
already-canonical flag set returns it unchanged; normalizing
`{ 'flag-a-1': false, flag_b: null }` yields `{ flagA1: false, flagB:
false }`; the unrecognized raw value `null` is coerced to the defined falsy
boolean `false` rather than rejected. -/
theorem c8_flag_normalization (fs : Flags) :
    (isCanonicalFlags fs = true → normalizeFlags fs = fs) ∧
    normalizeFlags [("flag-a-1", FlagValue.boolean false), ("flag_b", FlagValue.null)] =
      [("flagA1", FlagValue.boolean false), ("flagB", FlagValue.boolean false)] ∧
    normalizeFlagValue FlagValue.null = FlagValue.boolean false ∧
    (normalizeFlags fs).length = fs.length := by
  refine ⟨?_, by decide, rfl, by simp [normalizeFlags]⟩
  intro h
  induction fs with
  | nil => rfl
  | cons f fs ih =>
    rw [isCanonicalFlags, List.all_cons, Bool.and_eq_true] at h
    obtain ⟨hf, hfs⟩ := h
    rw [Bool.and_eq_true] at hf
    unfold normalizeFlags
    rw [List.map_cons]
    have hname := normalizeFlagName_of_canonical f.1 hf.1
    have hval := normalizeFlagValue_of_canonical f.2 hf.2
    rw [hname, hval]
    have := ih hfs
    unfold normalizeFlags at this
    rw [this]

/-- C8 witness: the canonical-flag-set hypothesis discharged at a concrete
canonical input. -/
theorem c8_flag_normalization_witness :
    normalizeFlags [("flagA1", FlagValue.boolean true)] =
      [("flagA1", FlagValue.boolean true)] :=
  (c8_flag_normalization [("flagA1", FlagValue.boolean true)]).1 (by decide)

/-- C9: after `configure` followed by any sequence of flag updates, `reset`
makes every flag unretrievable through `getFlag`, and the `reset` call itself
emits no flags-changed notification. -/
theorem c9_reset_clears_flags (user : String) (updates : List Flags) (name : String) :
    getFlag (memoryReset (updates.foldl (fun s fs => (memoryUpdateFlags s fs).state)
        (memoryConfigure initialMemoryAdapterState user).state)).state name = none ∧
    (memoryReset (updates.foldl (fun s fs => (memoryUpdateFlags s fs).state)
        (memoryConfigure initialMemoryAdapterState user).state)).events = [] := by
  exact ⟨rfl, rfl⟩

/-- C10: a flag mutation before `configure` has resolved triggers the
`invariant` mechanism with a failing condition, changes nothing and emits no
notification (and, being a total function, does not crash); after `configure`
the same mutation passes the assertion and invokes the flags-change
callback. -/
theorem c10_invariant_guards_flag_mutation (s : MemoryAdapterState) (fs : Flags) :
    (s.isConfigured = false →
      memoryUpdateFlags s fs =
        { state := s, invariantConditions := [false], events := [] }) ∧
    (s.isConfigured = true →
      (memoryUpdateFlags s fs).invariantConditions = [true] ∧
      (memoryUpdateFlags s fs).events =
        [AdapterEmit.flagsStateChange (mergeFlags s.flags (normalizeFlags fs))]) := by
  constructor <;> intro h <;> simp [memoryUpdateFlags, h]

/-- C10 witness: both configuration states, at concrete inputs. -/
theorem c10_invariant_guards_flag_mutation_witness :
    memoryUpdateFlags initialMemoryAdapterState [("a", FlagValue.boolean true)] =
      { state := initialMemoryAdapterState, invariantConditions := [false], events := [] } ∧
    (memoryUpdateFlags (memoryConfigure initialMemoryAdapterState "foo").state
        [("a", FlagValue.boolean true)]).invariantConditions = [true] :=
  ⟨(c10_invariant_guards_flag_mutation initialMemoryAdapterState
      [("a", FlagValue.boolean true)]).1 rfl,
    ((c10_invariant_guards_flag_mutation
        (memoryConfigure initialMemoryAdapterState "foo").state
        [("a", FlagValue.boolean true)]).2 rfl).1⟩

/-- C5 counterexample: with the adapter not ready, no render callback and a
single opaque child, the controller renders that child, not `null` — the
readiness gate in the render body only withholds the `render` callback
(configure-adapter.tsx lines 258-268). -/
theorem c5_counterexample_opaque_children_render_when_not_ready :
    renderConfigureAdapter false none
        (ConfigureAdapterChildren.nodeChildren [ReactNode.element "div"]) ≠ none := by
  decide

/-- C5 (amended): while the adapter reports not-ready, only the `render`
callback is withheld; non-empty opaque children are rendered through
`React.Children.only` regardless of readiness, and the controller renders
`null` only when children are absent or empty; once ready, the `render`
callback takes priority over any children; function children always receive
`isAdapterReady`. -/
theorem c5_readiness_gating_amended :
    (∀ n : ReactNode,
      renderConfigureAdapter false none (ConfigureAdapterChildren.nodeChildren [n]) =
        some n) ∧
    (∀ render : Option ReactNode,
      renderConfigureAdapter false render ConfigureAdapterChildren.nullChildren = none ∧
      renderConfigureAdapter false render (ConfigureAdapterChildren.nodeChildren []) =
        none) ∧
    (∀ (n : ReactNode) (children : ConfigureAdapterChildren),
      renderConfigureAdapter true (some n) children = some n) ∧
    (∀ (f : Bool → ReactNode) (b : Bool),
      renderConfigureAdapter b none (ConfigureAdapterChildren.functionChildren f) =
        some (f b)) := by
  refine ⟨fun n => rfl, fun render => ⟨?_, ?_⟩, fun n children => rfl, fun f b => ?_⟩
  · simp [renderConfigureAdapter]
  · simp [renderConfigureAdapter, isEmptyChildren]
  · simp [renderConfigureAdapter]

/-- C6: whenever non-empty default flags are supplied, the mount effect
publishes them through the flags-change callback as its very first output,
for every controller state and independently of the deferral flag and hence
of the adapter's configuration state. -/
theorem c6_default_flags_published_at_mount (p : Props) (c : Controller)
    (h : p.defaultFlags ≠ []) :
    ((mountEffect p c).2).head? = some (Output.flagsStateChange p.defaultFlags) := by
  have hne : p.defaultFlags.isEmpty = false := by
    cases hf : p.defaultFlags with
    | nil => exact absurd hf h
    | cons a l => rfl
  cases hd : p.shouldDeferAdapterConfiguration <;>
    simp [mountEffect, hd, hne]

/-- C6 witness: concrete default flags published first at mount, here with a
deferred configuration (the adapter is not contacted at all) to exhibit
independence from configuration. -/
theorem c6_default_flags_published_at_mount_witness :
    ((mountEffect
        { shouldDeferAdapterConfiguration := true
          adapterArgs := [("user", "foo")]
          defaultFlags := [("fooFlag", FlagValue.boolean true)] }
        (initialController
          { shouldDeferAdapterConfiguration := true
            adapterArgs := [("user", "foo")]
            defaultFlags := [("fooFlag", FlagValue.boolean true)] })).2).head? =
      some (Output.flagsStateChange [("fooFlag", FlagValue.boolean true)]) :=
  c6_default_flags_published_at_mount _ _ (by decide)

/-- C2: `requestReconfiguration(nextArgs, options)` (the public function the
controller exposes, `reconfigureOrQueue`): when the adapter state is
`CONFIGURED`, the request is merged into the applied arguments and the
following update pass issues exactly one `reconfigure` call with the merged
result, transitioning the state to `CONFIGURING`; otherwise the request is
merged into the pending arguments (seeded from the applied arguments when
none are pending), the controller state and applied arguments stay unchanged,
and the step emits no adapter call. -/
theorem c2_request_reconfiguration (p : Props) (c : Controller)
    (args : AdapterArgs) (opts : ReconfigurationOptions) :
    (c.adapterState = AdapterStateValue.configured →
      reconfigureOrQueue c args opts =
        { appliedAdapterArgs :=
            mergeAdapterArgs c.appliedAdapterArgs
              { adapterArgs := args, options := opts }
          pendingAdapterArgs := none
          adapterState := AdapterStateValue.configured } ∧
      updateEffect p (reconfigureOrQueue c args opts) =
        ({ appliedAdapterArgs :=
             mergeAdapterArgs c.appliedAdapterArgs
               { adapterArgs := args, options := opts }
           pendingAdapterArgs := none
           adapterState := AdapterStateValue.configuring },
          [Output.adapterCall (AdapterCall.reconfigure
            (mergeAdapterArgs c.appliedAdapterArgs
              { adapterArgs := args, options := opts }))])) ∧
    (¬ c.adapterState = AdapterStateValue.configured →
      reconfigureOrQueue c args opts =
        { c with
          pendingAdapterArgs :=
            some (mergeAdapterArgs
              (c.pendingAdapterArgs.getD c.appliedAdapterArgs)
              { adapterArgs := args, options := opts }) } ∧
      (traceStep p c (Event.contextReconfigure args opts)).2 = []) := by
  constructor
  · intro h
    have hg : getIsAdapterConfigured c = true := (getIsAdapterConfigured_iff c).mpr h
    have h1 : reconfigureOrQueue c args opts =
        { appliedAdapterArgs :=
            mergeAdapterArgs c.appliedAdapterArgs
              { adapterArgs := args, options := opts }
          pendingAdapterArgs := none
          adapterState := AdapterStateValue.configured } := by
      rw [reconfigureOrQueue_of_configured hg]
      unfold applyAdapterArgs
      obtain ⟨a, pnd, st⟩ := c
      simp only [Controller.mk.injEq] at h
      subst h
      rfl
    refine ⟨h1, ?_⟩
    rw [h1, updateEffect_of_configured rfl]
    rfl
  · intro h
    have hg : getIsAdapterConfigured c = false := by
      cases hb : getIsAdapterConfigured c
      · rfl
      · exact absurd ((getIsAdapterConfigured_iff c).mp hb) h
    exact ⟨by rw [reconfigureOrQueue_of_not_configured hg]; rfl, rfl⟩

/-- C2 witness: both branches at concrete inputs — a configured controller
whose request is applied and reconfigured, and a configuring controller whose
request is queued without an adapter call. -/
theorem c2_request_reconfiguration_witness :
    updateEffect sampleProps
        (reconfigureOrQueue
          { appliedAdapterArgs := [("user", "foo")]
            pendingAdapterArgs := none
            adapterState := AdapterStateValue.configured }
          [("user", "bar")] { shouldOverwrite := true }) =
      ({ appliedAdapterArgs := [("user", "bar")]
         pendingAdapterArgs := none
         adapterState := AdapterStateValue.configuring },
        [Output.adapterCall (AdapterCall.reconfigure [("user", "bar")])]) ∧
    reconfigureOrQueue
        { appliedAdapterArgs := [("user", "foo")]
          pendingAdapterArgs := none
          adapterState := AdapterStateValue.configuring }
        [("user", "bar")] { shouldOverwrite := false } =
      { appliedAdapterArgs := [("user", "foo")]
        pendingAdapterArgs := some [("user", "bar")]
        adapterState := AdapterStateValue.configuring } := by
  constructor
  · have h := ((c2_request_reconfiguration sampleProps
      { appliedAdapterArgs := [("user", "foo")]
        pendingAdapterArgs := none
        adapterState := AdapterStateValue.configured }
      [("user", "bar")] { shouldOverwrite := true }).1 rfl).2
    rw [h]
    decide
  · have h := ((c2_request_reconfiguration sampleProps
      { appliedAdapterArgs := [("user", "foo")]
        pendingAdapterArgs := none
        adapterState := AdapterStateValue.configuring }
      [("user", "bar")] { shouldOverwrite := false }).2 (by decide)).1
    rw [h]
    decide

/-- C3 counterexample: a valid trace from mount on which the pending value is
cleared without ever being promoted to the applied arguments.  A request
queued while a `reconfigure` call is outstanding survives that call's
fulfilment (which does not promote it, configure-adapter.tsx lines 244-246);
a later direct application while `CONFIGURED` then clears it, with the
applied arguments set to a different merge that drops the queued `locale`
field — refuting "the pending value is cleared exactly when it is promoted
to the applied arguments". -/
theorem c3_counterexample_pending_cleared_without_promotion :
    validFrom sampleProps sampleMounted sampleMountCalls
        (stalePendingTrace ++
          [Event.contextReconfigure [("flag", "y")] { shouldOverwrite := true }]) = true ∧
    (runEvents sampleProps sampleMounted stalePendingTrace).1.pendingAdapterArgs =
      some [("user", "bar"), ("locale", "de")] ∧
    (runEvents sampleProps sampleMounted
        (stalePendingTrace ++
          [Event.contextReconfigure [("flag", "y")] { shouldOverwrite := true }])).1.pendingAdapterArgs =
      none ∧
    (runEvents sampleProps sampleMounted
        (stalePendingTrace ++
          [Event.contextReconfigure [("flag", "y")] { shouldOverwrite := true }])).1.appliedAdapterArgs ≠
      [("user", "bar"), ("locale", "de")] := by
  decide

/-- C3 (amended): the controller holds at most one pending-arguments value
(an `Option`, never a queue); a request arriving while the adapter is not
configured merges into the existing pending arguments, seeded from the
applied arguments when none are pending; the pending value is cleared exactly
when a new applied value is set — on fulfilment of a `configure` call the
pending value itself is promoted to applied and cleared, while a direct
application of a request arriving while `CONFIGURED` overwrites applied with
the directly merged arguments and clears any pending value without promoting
it. -/
theorem c3_pending_merge_invariant (p : Props) (c : Controller) (q : AdapterArgs)
    (args : AdapterArgs) (opts : ReconfigurationOptions) (e : Event) :
    (getIsAdapterConfigured c = false →
      (reconfigureOrQueue c args opts).pendingAdapterArgs =
        some (mergeAdapterArgs (c.pendingAdapterArgs.getD c.appliedAdapterArgs)
          { adapterArgs := args, options := opts })) ∧
    (∀ next : AdapterArgs,
      (applyAdapterArgs c next).pendingAdapterArgs = none ∧
      (applyAdapterArgs c next).appliedAdapterArgs = next) ∧
    (c.pendingAdapterArgs = some q →
      (resolveConfigureEffect c).appliedAdapterArgs = q ∧
      (resolveConfigureEffect c).pendingAdapterArgs = none) ∧
    (c.pendingAdapterArgs = some q →
      (traceStep p c e).1.pendingAdapterArgs = none →
      (traceStep p c e).1.appliedAdapterArgs = q ∨
        getIsAdapterConfigured c = true) := by
  refine ⟨?_, fun next => ⟨rfl, rfl⟩, ?_, ?_⟩
  · intro hg
    rw [reconfigureOrQueue_of_not_configured hg]
    rfl
  · intro hq
    unfold resolveConfigureEffect
    rw [hq]
    exact ⟨rfl, rfl⟩
  · intro hq hnone
    cases e with
    | mount =>
      exfalso
      rw [show (traceStep p c Event.mount).1 = (mountEffect p c).1 from rfl,
        mountEffect_pendingAdapterArgs, hq] at hnone
      exact Option.noConfusion hnone
    | receiveProps args2 =>
      cases hg : getIsAdapterConfigured c with
      | true => exact Or.inr rfl
      | false =>
        exfalso
        rw [show (traceStep p c (Event.receiveProps args2)).1 =
            receivePropsEffect c args2 from rfl] at hnone
        unfold receivePropsEffect at hnone
        rw [reconfigureOrQueue_of_not_configured hg] at hnone
        simp [setPendingAdapterArgs] at hnone
    | update =>
      exfalso
      rw [show (traceStep p c Event.update).1 = (updateEffect p c).1 from rfl,
        updateEffect_pendingAdapterArgs, hq] at hnone
      exact Option.noConfusion hnone
    | contextReconfigure args2 opts2 =>
      cases hg : getIsAdapterConfigured c with
      | true => exact Or.inr rfl
      | false =>
        exfalso
        rw [show (traceStep p c (Event.contextReconfigure args2 opts2)).1 =
            reconfigureOrQueue c args2 opts2 from rfl] at hnone
        rw [reconfigureOrQueue_of_not_configured hg] at hnone
        simp [setPendingAdapterArgs] at hnone
    | resolveConfigure =>
      refine Or.inl ?_
      show (resolveConfigureEffect c).appliedAdapterArgs = q
      unfold resolveConfigureEffect
      rw [hq]
      rfl
    | resolveReconfigure =>
      exfalso
      rw [show (traceStep p c Event.resolveReconfigure).1.pendingAdapterArgs =
          c.pendingAdapterArgs from rfl, hq] at hnone
      exact Option.noConfusion hnone

/-- C3 witness: the hypotheses discharged at concrete inputs — a queued merge
while configuring, and a promotion-with-clear on configure fulfilment. -/
theorem c3_pending_merge_invariant_witness :
    (reconfigureOrQueue
        { appliedAdapterArgs := [("user", "foo")]
          pendingAdapterArgs := none
          adapterState := AdapterStateValue.configuring }
        [("locale", "de")] { shouldOverwrite := false }).pendingAdapterArgs =
      some [("user", "foo"), ("locale", "de")] ∧
    (resolveConfigureEffect
        { appliedAdapterArgs := [("user", "foo")]
          pendingAdapterArgs := some [("user", "bar")]
          adapterState := AdapterStateValue.configuring }).appliedAdapterArgs =
      [("user", "bar")] := by
  constructor
  · have h := (c3_pending_merge_invariant sampleProps
      { appliedAdapterArgs := [("user", "foo")]
        pendingAdapterArgs := none
        adapterState := AdapterStateValue.configuring }
      [] [("locale", "de")] { shouldOverwrite := false } Event.update).1 (by decide)
    rw [h]
    decide
  · exact ((c3_pending_merge_invariant sampleProps
      { appliedAdapterArgs := [("user", "foo")]
        pendingAdapterArgs := some [("user", "bar")]
        adapterState := AdapterStateValue.configuring }
      [("user", "bar")] [] { shouldOverwrite := false } Event.update).2.2.1 rfl).1

/-- C4 counterexample: a valid trace from mount reaching a state where a
`reconfigure` promise fulfilment transitions the controller from
`CONFIGURING` into `CONFIGURED` while pending arguments exist, and the
pending value is not promoted (applied arguments unchanged and different
from it), no reconfigure cycle is triggered, and pending is not cleared —
refuting the claim for reconfigure-promise resolutions
(configure-adapter.tsx lines 244-246 set `CONFIGURED` only). -/
theorem c4_counterexample_reconfigure_resolution_skips_promotion :
    validFrom sampleProps sampleMounted sampleMountCalls stalePendingTrace = true ∧
    (runEvents sampleProps sampleMounted
        [Event.resolveConfigure, Event.receiveProps [("user", "bar")], Event.update,
          Event.contextReconfigure [("locale", "de")]
            { shouldOverwrite := false }]).1.adapterState =
      AdapterStateValue.configuring ∧
    (runEvents sampleProps sampleMounted
        [Event.resolveConfigure, Event.receiveProps [("user", "bar")], Event.update,
          Event.contextReconfigure [("locale", "de")]
            { shouldOverwrite := false }]).1.pendingAdapterArgs =
      some [("user", "bar"), ("locale", "de")] ∧
    (runEvents sampleProps sampleMounted stalePendingTrace).1.adapterState =
      AdapterStateValue.configured ∧
    (runEvents sampleProps sampleMounted stalePendingTrace).1.pendingAdapterArgs =
      some [("user", "bar"), ("locale", "de")] ∧
    (runEvents sampleProps sampleMounted stalePendingTrace).1.appliedAdapterArgs ≠
      [("user", "bar"), ("locale", "de")] ∧
    (traceStep sampleProps
        (runEvents sampleProps sampleMounted
          [Event.resolveConfigure, Event.receiveProps [("user", "bar")], Event.update,
            Event.contextReconfigure [("locale", "de")] { shouldOverwrite := false }]).1
        Event.resolveReconfigure).2 = [] := by
  decide

/-- C4 (amended): whenever a `configure`-promise fulfilment transitions the
controller from `CONFIGURING` into `CONFIGURED` while a pending-arguments
value exists, that value is promoted to the applied arguments and cleared,
and the following update pass issues exactly one `reconfigure` call with the
promoted arguments; a `reconfigure`-promise fulfilment transitions into
`CONFIGURED` without promoting or clearing pending arguments. -/
theorem c4_configure_resolution_promotes_pending (p : Props) (c : Controller)
    (q : AdapterArgs) (_hs : c.adapterState = AdapterStateValue.configuring)
    (hp : c.pendingAdapterArgs = some q) :
    runEvents p c [Event.resolveConfigure, Event.update] =
      ({ appliedAdapterArgs := q
         pendingAdapterArgs := none
         adapterState := AdapterStateValue.configuring },
        [Output.adapterCall (AdapterCall.reconfigure q)]) ∧
    resolveReconfigureEffect c =
      { c with adapterState := AdapterStateValue.configured } := by
  refine ⟨?_, rfl⟩
  have h1 : resolveConfigureEffect c =
      { appliedAdapterArgs := q
        pendingAdapterArgs := none
        adapterState := AdapterStateValue.configured } := by
    unfold resolveConfigureEffect
    rw [hp]
    rfl
  simp only [runEvents, traceStep]
  rw [h1, updateEffect_of_configured rfl]
  rfl

/-- C4 witness: promotion at a concrete configuring state with concrete
pending arguments. -/
theorem c4_configure_resolution_promotes_pending_witness :
    runEvents sampleProps
        { appliedAdapterArgs := [("user", "foo")]
          pendingAdapterArgs := some [("user", "bar")]
          adapterState := AdapterStateValue.configuring }
        [Event.resolveConfigure, Event.update] =
      ({ appliedAdapterArgs := [("user", "bar")]
         pendingAdapterArgs := none
         adapterState := AdapterStateValue.configuring },
        [Output.adapterCall (AdapterCall.reconfigure [("user", "bar")])]) :=
  (c4_configure_resolution_promotes_pending sampleProps
    { appliedAdapterArgs := [("user", "foo")]
      pendingAdapterArgs := some [("user", "bar")]
      adapterState := AdapterStateValue.configuring }
    [("user", "bar")] rfl rfl).1

/-- C7: the promise fulfilment callbacks registered by the controller are the
only transitions out of `CONFIGURING`, and the source registers no rejection
handler and no retry (the `.then` calls at configure-adapter.tsx lines
169-174, 227-233 and 244-246 have no second argument and no `.catch`).
After a rejection, therefore, no fulfilment event ever occurs; under every
such continuation (any mix of props changes, context reconfiguration
requests and update passes) the controller stays in `CONFIGURING` forever,
emits no output at all — no adapter call is retried and no error is
surfaced. -/
theorem c7_rejection_stalls_configuring (p : Props) (c : Controller)
    (es : List Event) (hs : c.adapterState = AdapterStateValue.configuring)
    (he : es.all isPostRejectionEvent = true) :
    (runEvents p c es).1.adapterState = AdapterStateValue.configuring ∧
    (runEvents p c es).2 = [] := by
  induction es generalizing c with
  | nil => exact ⟨hs, rfl⟩
  | cons e es ih =>
    rw [List.all_cons, Bool.and_eq_true] at he
    obtain ⟨he1, he2⟩ := he
    cases e with
    | mount => exact absurd he1 (by decide)
    | resolveConfigure => exact absurd he1 (by decide)
    | resolveReconfigure => exact absurd he1 (by decide)
    | receiveProps args =>
      have hstate : (receivePropsEffect c args).adapterState =
          AdapterStateValue.configuring := by
        rw [receivePropsEffect_adapterState]; exact hs
      have hrec := ih (receivePropsEffect c args) hstate he2
      exact ⟨hrec.1, by
        show ((traceStep p c (Event.receiveProps args)).2 ++
          (runEvents p (receivePropsEffect c args) es).2) = []
        rw [hrec.2]
        rfl⟩
    | contextReconfigure args opts =>
      have hstate : (reconfigureOrQueue c args opts).adapterState =
          AdapterStateValue.configuring := by
        rw [reconfigureOrQueue_adapterState]; exact hs
      have hrec := ih (reconfigureOrQueue c args opts) hstate he2
      exact ⟨hrec.1, by
        show ((traceStep p c (Event.contextReconfigure args opts)).2 ++
          (runEvents p (reconfigureOrQueue c args opts) es).2) = []
        rw [hrec.2]
        rfl⟩
    | update =>
      have hupd : updateEffect p c = (c, []) := updateEffect_of_configuring hs
      have hrec := ih c hs he2
      constructor
      · show (runEvents p (traceStep p c Event.update).1 es).1.adapterState = _
        rw [show traceStep p c Event.update = (c, []) from hupd]
        exact hrec.1
      · show ((traceStep p c Event.update).2 ++
          (runEvents p (traceStep p c Event.update).1 es).2) = []
        rw [show traceStep p c Event.update = (c, []) from hupd, hrec.2]
        rfl

theorem mountEffect_init (p : Props) :
    countAdapterCalls (mountEffect p (initialController p)).2 ≤ 1 ∧
    (countAdapterCalls (mountEffect p (initialController p)).2 = 1 →
      (mountEffect p (initialController p)).1.adapterState =
        AdapterStateValue.configuring) := by
  cases hd : p.shouldDeferAdapterConfiguration <;>
    cases hf : p.defaultFlags.isEmpty <;>
      simp [mountEffect, initialController, hd, hf, countAdapterCalls,
        isAdapterCallOutput]

theorem validRun_bounded (es : List Event) :
    ∀ (p : Props) (c : Controller) (k : Nat),
      validFrom p c k es = true → k ≤ 1 →
      (k = 1 → c.adapterState = AdapterStateValue.configuring) →
      (runOutstanding p c k es).2 ≤ 1 := by
  induction es with
  | nil =>
    intro p c k _ h1 _
    exact h1
  | cons e es ih =>
    intro p c k hv h1 hlink
    simp only [validFrom, Bool.and_eq_true] at hv
    obtain ⟨hallow, hrest⟩ := hv
    simp only [runOutstanding]
    cases e with
    | mount => exact Bool.noConfusion hallow
    | receiveProps args =>
      exact ih p (receivePropsEffect c args) k hrest h1
        (fun hk => by rw [receivePropsEffect_adapterState]; exact hlink hk)
    | contextReconfigure args opts =>
      exact ih p (reconfigureOrQueue c args opts) k hrest h1
        (fun hk => by rw [reconfigureOrQueue_adapterState]; exact hlink hk)
    | resolveConfigure =>
      have hk1 : k = 1 := of_decide_eq_true hallow
      subst hk1
      exact ih p (resolveConfigureEffect c) 0 hrest (by omega)
        (fun h => absurd h (by omega))
    | resolveReconfigure =>
      have hk1 : k = 1 := of_decide_eq_true hallow
      subst hk1
      exact ih p (resolveReconfigureEffect c) 0 hrest (by omega)
        (fun h => absurd h (by omega))
    | update =>
      rcases updateEffect_spec p c with hcase | hcase
      · rw [show traceStep p c Event.update = updateEffect p c from rfl, hcase]
          at hrest ⊢
        exact ih p c k hrest h1 hlink
      · obtain ⟨hstate, hcount⟩ := hcase
        cases k with
        | zero =>
          have hk' : nextOutstanding 0 Event.update (traceStep p c Event.update).2 = 1 := by
            show 0 + countAdapterCalls (updateEffect p c).2 = 1
            omega
          rw [hk'] at hrest ⊢
          exact ih p (updateEffect p c).1 1 hrest (le_refl 1) (fun _ => hstate)
        | succ n =>
          exfalso
          have hn : n = 0 := by omega
          subst hn
          have := updateEffect_of_configuring (p := p) (hlink rfl)
          rw [this] at hcount
          simp [countAdapterCalls] at hcount

theorem runOutstanding_calls (es : List Event) :
    ∀ (p : Props) (c : Controller) (k : Nat),
      validFrom p c k es = true →
      (runOutstanding p c k es).2 + es.countP isResolveEvent =
        k + countAdapterCalls (runEvents p c es).2 := by
  induction es with
  | nil =>
    intro p c k _
    rfl
  | cons e es ih =>
    intro p c k hv
    simp only [validFrom, Bool.and_eq_true] at hv
    obtain ⟨hallow, hrest⟩ := hv
    simp only [runOutstanding, runEvents, List.countP_cons, countAdapterCalls,
      List.countP_append]
    cases e with
    | mount => exact Bool.noConfusion hallow
    | receiveProps args =>
      have h := ih p (receivePropsEffect c args) k hrest
      simp only [countAdapterCalls] at h
      simp only [show traceStep p c (Event.receiveProps args) =
        (receivePropsEffect c args, []) from rfl, isResolveEvent, List.countP_nil]
      simpa using h
    | contextReconfigure args opts =>
      have h := ih p (reconfigureOrQueue c args opts) k hrest
      simp only [countAdapterCalls] at h
      simp only [show traceStep p c (Event.contextReconfigure args opts) =
        (reconfigureOrQueue c args opts, []) from rfl, isResolveEvent, List.countP_nil]
      simpa using h
    | update =>
      have h := ih p (updateEffect p c).1
        (k + countAdapterCalls (updateEffect p c).2) hrest
      simp only [countAdapterCalls] at h
      simp only [show traceStep p c Event.update = updateEffect p c from rfl,
        isResolveEvent, nextOutstanding]
      simp only [nextOutstanding, isResolveEvent, countAdapterCalls] at h ⊢
      simp only [Bool.false_eq_true, if_false]
      omega
    | resolveConfigure =>
      have hk1 : k = 1 := of_decide_eq_true hallow
      subst hk1
      have h := ih p (resolveConfigureEffect c) 0 hrest
      simp only [countAdapterCalls] at h
      rw [show traceStep p c Event.resolveConfigure =
        (resolveConfigureEffect c, []) from rfl]
      simp [isResolveEvent, nextOutstanding, countAdapterCalls]
      omega
    | resolveReconfigure =>
      have hk1 : k = 1 := of_decide_eq_true hallow
      subst hk1
      have h := ih p (resolveReconfigureEffect c) 0 hrest
      simp only [countAdapterCalls] at h
      rw [show traceStep p c Event.resolveReconfigure =
        (resolveReconfigureEffect c, []) from rfl]
      simp [isResolveEvent, nextOutstanding, countAdapterCalls]
      omega

/-- C1: in every valid trace — mount first, each promise resolution
consuming the one outstanding call it fulfils, events otherwise arbitrary —
the number of configure/reconfigure calls issued to the adapter never
exceeds the number of resolved promises by more than one: at most one
configure/reconfigure call is outstanding at any time, so a `reconfigure`
is never issued before the previously issued configure/reconfigure promise
has resolved.  Since every prefix of a valid trace is valid, the bound holds
at every point of the run. -/
theorem c1_at_most_one_outstanding_call (p : Props) (es : List Event)
    (hv : validFrom p (mountEffect p (initialController p)).1
        (countAdapterCalls (mountEffect p (initialController p)).2) es = true) :
    countAdapterCalls (mountEffect p (initialController p)).2 +
      countAdapterCalls
        (runEvents p (mountEffect p (initialController p)).1 es).2 ≤
      es.countP isResolveEvent + 1 := by
  have hinit := mountEffect_init p
  have hb := validRun_bounded es p (mountEffect p (initialController p)).1
    (countAdapterCalls (mountEffect p (initialController p)).2) hv hinit.1 hinit.2
  have hr := runOutstanding_calls es p (mountEffect p (initialController p)).1
    (countAdapterCalls (mountEffect p (initialController p)).2) hv
  omega

/-- C1 witness: a valid sample trace with a request queued while configuring,
the configure fulfilment, the promoted reconfigure and its fulfilment. -/
theorem c1_at_most_one_outstanding_call_witness :
    countAdapterCalls (mountEffect sampleProps (initialController sampleProps)).2 +
      countAdapterCalls
        (runEvents sampleProps
          (mountEffect sampleProps (initialController sampleProps)).1 sampleTrace).2 ≤
      sampleTrace.countP isResolveEvent + 1 :=
  c1_at_most_one_outstanding_call sampleProps sampleTrace (by decide)

/-- C7 witness: a concrete configuring state under a concrete post-rejection
continuation. -/
theorem c7_rejection_stalls_configuring_witness :
    (runEvents sampleProps
        { appliedAdapterArgs := [("user", "foo")]
          pendingAdapterArgs := none
          adapterState := AdapterStateValue.configuring }
        [Event.contextReconfigure [("user", "bar")] { shouldOverwrite := false },
          Event.update,
          Event.receiveProps [("user", "baz")]]).1.adapterState =
      AdapterStateValue.configuring ∧
    (runEvents sampleProps
        { appliedAdapterArgs := [("user", "foo")]
          pendingAdapterArgs := none
          adapterState := AdapterStateValue.configuring }
        [Event.contextReconfigure [("user", "bar")] { shouldOverwrite := false },
          Event.update,
          Event.receiveProps [("user", "baz")]]).2 = [] :=
  c7_rejection_stalls_configuring sampleProps
    { appliedAdapterArgs := [("user", "foo")]
      pendingAdapterArgs := none
      adapterState := AdapterStateValue.configuring }
    [Event.contextReconfigure [("user", "bar")] { shouldOverwrite := false },
      Event.update, Event.receiveProps [("user", "baz")]]
    rfl (by decide)

end Flopflip
